import Mathlib

/-!
Verification of the Boost.Scope Conan recipe (`conan/conanfile.py`).

The recipe is a flat descriptor with five hooks: `validate`, `export_sources`,
`build`, `package` and `package_id`.  We embed each hook as a pure Lean
function over explicit inputs:

* compiler settings become the structure `CompilerSettings`;
* the filesystem is a map from relative paths to file contents
  (`Tree := String → Option String`); every `conan.tools.files.copy` call
  becomes `copyP`, which copies the files of the source tree whose relative
  path matches the given fnmatch-style pattern into the destination tree;
* the external tool `conan.tools.files.patch` is abstracted by a patch
  application function passed as a parameter to `build`;
* `conan.tools.build.check_min_cppstd` is embedded with its documented
  comparison: the textual cppstd token is compared after prepending the
  millennium (`"98" ↦ 1998`, `"11" ↦ 2011`, …), so C++98 counts as older
  than C++11; `gnu` prefixes are stripped before the comparison, so a cppstd
  value is represented by its numeric token.
-/

namespace BoostScope

/-- fnmatch-style pattern matching on lists of characters, as used by
`conan.tools.files.copy` on relative paths: `*` matches any (possibly empty)
sequence of characters, including path separators; every other character
matches only itself.  The patterns occurring in the recipe use no other
wildcard. -/
def globMatchL : List Char → List Char → Bool
  | [], s => s.isEmpty
  | p :: ps, s =>
    if p = '*' then s.tails.any (fun t => globMatchL ps t)
    else
      match s with
      | [] => false
      | c :: cs => p = c && globMatchL ps cs

/-- Pattern matching lifted to strings (relative paths). -/
def globMatch (pat s : String) : Bool :=
  globMatchL pat.data s.data

/-- A pattern containing no `*` matches exactly the identical string. -/
theorem globMatchL_no_star (pat : List Char) (hp : '*' ∉ pat) :
    ∀ s : List Char, globMatchL pat s = true ↔ pat = s := by
  induction pat with
  | nil =>
    intro s
    cases s <;> simp [globMatchL]
  | cons p ps ih =>
    intro s
    have hps : '*' ∉ ps := fun h => hp (List.mem_cons_of_mem _ h)
    have hpne : p ≠ '*' := fun h => hp (h ▸ List.mem_cons_self _ _)
    cases s with
    | nil => simp [globMatchL, hpne]
    | cons c cs =>
      simp only [globMatchL, if_neg hpne, Bool.and_eq_true, decide_eq_true_eq,
        List.cons.injEq]
      constructor
      · rintro ⟨h1, h2⟩
        exact ⟨h1, (ih hps cs).mp h2⟩
      · rintro ⟨h1, h2⟩
        exact ⟨h1, (ih hps cs).mpr h2⟩

/-- A lone `*` matches every string. -/
theorem globMatchL_star_any : ∀ s : List Char, globMatchL ['*'] s = true := by
  intro s
  have hmem : ([] : List Char) ∈ s.tails := by
    simp [List.mem_tails]
  show (s.tails.any (fun t => globMatchL [] t)) = true
  rw [List.any_eq_true]
  exact ⟨[], hmem, rfl⟩

/-- A star-free pattern followed by `*` matches exactly the strings extending
the pattern. -/
theorem globMatchL_star (pat : List Char) (hp : '*' ∉ pat) :
    ∀ s : List Char, globMatchL (pat ++ ['*']) s = true ↔ ∃ t, pat ++ t = s := by
  induction pat with
  | nil =>
    intro s
    simpa using globMatchL_star_any s
  | cons p ps ih =>
    intro s
    have hps : '*' ∉ ps := fun h => hp (List.mem_cons_of_mem _ h)
    have hpne : p ≠ '*' := fun h => hp (h ▸ List.mem_cons_self _ _)
    cases s with
    | nil =>
      simp [globMatchL, hpne]
    | cons c cs =>
      simp only [List.cons_append, globMatchL, if_neg hpne, Bool.and_eq_true,
        decide_eq_true_eq]
      constructor
      · rintro ⟨h1, h2⟩
        obtain ⟨t, ht⟩ := (ih hps cs).mp h2
        exact ⟨t, by simp [h1, ht]⟩
      · rintro ⟨t, ht⟩
        have h1 : p = c := by
          have := congrArg (List.headI) ht
          simpa using this
        have h2 : ps ++ t = cs := by
          have := congrArg (List.tail) ht
          simpa using this
        exact ⟨h1, (ih hps cs).mpr ⟨t, h2⟩⟩

/-! ### Compiler settings and `validate` -/

/-- The compiler-related settings supplied by the invoking environment
(`self.settings.compiler` in the recipe).  The version is the numeric
compiler version (the recipe compares it with the integer table entries via
`conan.tools.scm.Version`); `cppstd` is the explicitly configured C++
standard, `none` when unset (`get_safe("cppstd")` returns `None`), and
otherwise the numeric token of the standard (98, 11, 14, …; a `gnu` prefix
is irrelevant to the recipe's check and is stripped). -/
structure CompilerSettings where
  compiler : String
  version : Nat
  cppstd : Option Nat
deriving DecidableEq, Repr

/-- Outcome of `validate`: success (recording whether the
"Assuming the compiler supports c++11 by default" warning was emitted), or a
raised `ConanInvalidConfiguration` carrying its message. -/
inductive ValidateOutcome where
  | ok (warned : Bool)
  | invalidConfiguration (msg : String)
deriving DecidableEq, Repr

/-- `validate` raised an error. -/
def ValidateOutcome.isFailure : ValidateOutcome → Bool
  | .ok _ => false
  | .invalidConfiguration _ => true

/-- `validate` succeeded and emitted the unknown-compiler warning. -/
def ValidateOutcome.warned : ValidateOutcome → Bool
  | .ok w => w
  | .invalidConfiguration _ => false

/-- `ScopeConan._min_compiler_version_default_cxx11`: the table of minimum
compiler versions whose default C++ standard is at least C++11; `none` for a
compiler absent from the table (`dict.get` returns `None`). -/
def min_compiler_version_default_cxx11 (compiler : String) : Option Nat :=
  if compiler = "apple-clang" then some 99
  else if compiler = "gcc" then some 6
  else if compiler = "clang" then some 6
  else if compiler = "Visual Studio" then some 14
  else if compiler = "msvc" then some 190
  else none

/-- The comparison key `conan.tools.build.check_min_cppstd` uses: the cppstd
token with its millennium prepended, `98 ↦ 1998` and `n ↦ 2000 + n`
otherwise, so that C++98 orders below C++11. -/
def cppstdMillennium (n : Nat) : Nat :=
  if n = 98 then 1998 else 2000 + n

/-- `conan.tools.build.check_min_cppstd conanfile 11` as called by the
recipe: succeeds (returns `true`) exactly when the configured standard is at
least the required one under the millennium ordering; otherwise the tool
raises `ConanInvalidConfiguration`. -/
def check_min_cppstd (current required : Nat) : Bool :=
  cppstdMillennium required ≤ cppstdMillennium current

/-- `ScopeConan.validate`.  If a C++ standard is explicitly configured, it is
checked against C++11 by `check_min_cppstd`.  Otherwise the minimum-version
table is consulted: an unknown compiler produces a warning and success, a
known compiler fails exactly when its version is below the table entry. -/
def validate (s : CompilerSettings) : ValidateOutcome :=
  match s.cppstd with
  | some std =>
    if check_min_cppstd std 11 then .ok false
    else .invalidConfiguration "Current cppstd is lower than the required C++ standard (11)"
  | none =>
    match min_compiler_version_default_cxx11 s.compiler with
    | none => .ok true
    | some v =>
      if s.version < v then .invalidConfiguration "Boost.Scope requires C++11"
      else .ok false

/-! ### File trees and the copy-based hooks -/

/-- A directory tree: a map from relative paths to file contents. -/
def Tree : Type := String → Option String

/-- The empty destination tree. -/
def Tree.empty : Tree := fun _ => none

/-- `conan.tools.files.copy conanfile pat srcdir dstdir`: every file of the
source tree whose relative path matches `pat` is copied into the destination
tree at the same relative path; all other destination entries are kept. -/
def copyP (pat : String) (src dst : Tree) : Tree :=
  fun p => if globMatch pat p ∧ (src p).isSome then src p else dst p

/-- `ScopeConan.export_sources`: staging of the recipe's sources, three
`copy` calls into an initially empty export folder, patterns `"LICENSE"`,
`"include*"` and `"conan/1.83_compat.patch"`. -/
def export_sources (src : Tree) : Tree :=
  copyP "conan/1.83_compat.patch" src
    (copyP "include*" src
      (copyP "LICENSE" src Tree.empty))

/-- Outcome of `build`: the patched source tree, or a raised error. -/
inductive BuildOutcome where
  | ok (tree : Tree)
  | fileNotFound
  | patchError

/-- `ScopeConan.build`, parameterised by the external patch tool
`conan.tools.files.patch` (modelled abstractly: `applyPatch` takes the patch
file's contents and the source tree and returns the patched tree, or `none`
when the patch does not apply cleanly).  `build` reads the patch file at
`source_folder/conan/1.83_compat.patch` and applies it in place. -/
def build (applyPatch : String → Tree → Option Tree) (src : Tree) : BuildOutcome :=
  match src "conan/1.83_compat.patch" with
  | none => .fileNotFound
  | some pc =>
    match applyPatch pc src with
    | none => .patchError
    | some t => .ok t

/-- `ScopeConan.package`: two `copy` calls from the source folder into the
(initially empty) package folder, patterns `"include/*"` and `"LICENSE"`. -/
def package (src : Tree) : Tree :=
  copyP "LICENSE" src
    (copyP "include/*" src Tree.empty)

/-! ### Package identity -/

/-- The configuration-derived identity fields of `self.info` that the
recipe's settings (`compiler`, `build_type`) can populate. -/
structure PackageInfo where
  compiler : Option String
  compilerVersion : Option Nat
  cppstd : Option Nat
  build_type : Option String
deriving DecidableEq, Repr

/-- `self.info.clear()`: all configuration-derived fields erased. -/
def PackageInfo.clear (_ : PackageInfo) : PackageInfo :=
  ⟨none, none, none, none⟩

/-- `ScopeConan.package_id`: calls `self.info.clear()`, returning the
resulting identity record. -/
def package_id (info : PackageInfo) : PackageInfo :=
  info.clear

/-! ### Pattern facts used by the copy-hook theorems -/

/-- A star-free pattern matches exactly the identical path. -/
theorem globMatch_exact (pat p : String) (h : '*' ∉ pat.data) :
    globMatch pat p = true ↔ p = pat := by
  unfold globMatch
  rw [globMatchL_no_star pat.data h p.data]
  constructor
  · intro he
    exact String.ext he.symm
  · rintro rfl
    rfl

/-- Every path matched by `"include/*"` is matched by `"include*"`: the
export-time staging pattern covers every path the packaging pattern
selects. -/
theorem globMatch_include_sub (p : String) (h : globMatch "include/*" p = true) :
    globMatch "include*" p = true := by
  unfold globMatch at *
  rw [show ("include/*" : String).data = "include/".data ++ ['*'] from rfl] at h
  rw [show ("include*" : String).data = "include".data ++ ['*'] from rfl]
  obtain ⟨t, ht⟩ := (globMatchL_star _ (by decide) _).mp h
  exact (globMatchL_star _ (by decide) _).mpr ⟨'/' :: t, by rw [← ht]; rfl⟩

/-- A path under `include/` is neither the license file nor the patch
file. -/
theorem globMatch_include_not_special (p : String)
    (hm : globMatch "include/*" p = true) :
    globMatch "LICENSE" p = false ∧ globMatch "conan/1.83_compat.patch" p = false := by
  constructor
  · cases hl : globMatch "LICENSE" p
    · rfl
    · have hp := (globMatch_exact "LICENSE" p (by decide)).mp hl
      subst hp
      exact absurd hm (by decide)
  · cases hl : globMatch "conan/1.83_compat.patch" p
    · rfl
    · have hp := (globMatch_exact "conan/1.83_compat.patch" p (by decide)).mp hl
      subst hp
      exact absurd hm (by decide)

/-! ### Claims about `validate` -/

/-- C1: for every compiler present in the minimum-version table
(`apple-clang ↦ 99`, `gcc ↦ 6`, `clang ↦ 6`, `Visual Studio ↦ 14`,
`msvc ↦ 190`), when no explicit C++ standard is configured, `validate`
raises `ConanInvalidConfiguration` if and only if the supplied compiler
version is strictly below that compiler's table entry. -/
theorem validate_table_version_gate (c : String) (v m : Nat)
    (h : min_compiler_version_default_cxx11 c = some m) :
    (validate ⟨c, v, none⟩).isFailure = true ↔ v < m := by
  by_cases hv : v < m <;>
    simp [validate, h, hv, ValidateOutcome.isFailure]

/-- Witness for C1 at compiler `gcc`, version 5, table entry 6. -/
theorem validate_table_version_gate_witness :
    min_compiler_version_default_cxx11 "gcc" = some 6 ∧
      ((validate ⟨"gcc", 5, none⟩).isFailure = true ↔ 5 < 6) :=
  ⟨rfl, validate_table_version_gate "gcc" 5 6 rfl⟩

/-- C2: when a C++ standard is explicitly configured, `validate` fails
exactly when that standard is older than C++11 in the ordering of C++
standards (millennium comparison, so 98 counts as 1998), irrespective of
the compiler identity and version. -/
theorem validate_explicit_cppstd_gate (c : String) (v std : Nat) :
    (validate ⟨c, v, some std⟩).isFailure = true ↔
      cppstdMillennium std < cppstdMillennium 11 := by
  by_cases hs : cppstdMillennium 11 ≤ cppstdMillennium std <;>
    simp [validate, check_min_cppstd, hs, ValidateOutcome.isFailure]
  omega

/-- C3: for a compiler absent from the minimum-version table, with no
explicit C++ standard configured, `validate` succeeds for every version and
emits the non-fatal "assuming c++11" warning. -/
theorem validate_unknown_compiler_warns (c : String) (v : Nat)
    (h : min_compiler_version_default_cxx11 c = none) :
    validate ⟨c, v, none⟩ = .ok true := by
  simp [validate, h]

/-- Witness for C3 at compiler `unknown-compiler`, version 1. -/
theorem validate_unknown_compiler_warns_witness :
    min_compiler_version_default_cxx11 "unknown-compiler" = none ∧
      validate ⟨"unknown-compiler", 1, none⟩ = .ok true :=
  ⟨rfl, validate_unknown_compiler_warns "unknown-compiler" 1 rfl⟩

/-- C8: the three concrete examples: `gcc` 5 without explicit standard
fails (5 < 6), `gcc` 7 succeeds, and `unknown-compiler` 1 succeeds with the
warning. -/
theorem validate_concrete_examples :
    validate ⟨"gcc", 5, none⟩ = .invalidConfiguration "Boost.Scope requires C++11" ∧
    validate ⟨"gcc", 7, none⟩ = .ok false ∧
    validate ⟨"unknown-compiler", 1, none⟩ = .ok true := by
  decide

/-- C9: with an explicitly configured C++ standard, `validate`'s outcome is
the same for every compiler identity and version (the table and the version
are never consulted) and the unknown-compiler warning is never emitted. -/
theorem validate_explicit_shadows_table (c₁ c₂ : String) (v₁ v₂ std : Nat) :
    validate ⟨c₁, v₁, some std⟩ = validate ⟨c₂, v₂, some std⟩ ∧
    (validate ⟨c₁, v₁, some std⟩).warned = false := by
  refine ⟨rfl, ?_⟩
  by_cases hs : check_min_cppstd std 11 <;>
    simp [validate, hs, ValidateOutcome.warned]

/-- C7: `package_id` erases every configuration-derived identity field, so
any two builds, whatever their compiler and build type, produce the same
package identity record. -/
theorem package_id_configuration_independent (i j : PackageInfo) :
    package_id i = package_id j :=
  rfl


/-! ### Claims about the copy hooks -/

/-- C6: `export_sources` stages exactly the files matching one of the three
patterns `"LICENSE"`, `"include*"` and `"conan/1.83_compat.patch"`, with
unchanged contents, and nothing else. -/
theorem export_sources_exact (src : Tree) (p : String) :
    export_sources src p =
      if (globMatch "LICENSE" p || globMatch "include*" p ||
          globMatch "conan/1.83_compat.patch" p) && (src p).isSome
      then src p else none := by
  cases h1 : globMatch "LICENSE" p <;>
  cases h2 : globMatch "include*" p <;>
  cases h3 : globMatch "conan/1.83_compat.patch" p <;>
  cases hs : src p <;>
    simp [export_sources, copyP, Tree.empty, h1, h2, h3, hs]

/-- C5: staging the sources with `export_sources` and then packaging the
staged tree with `package` reproduces, byte for byte, the license file and
every file under `include/` of the source root. -/
theorem export_then_package_roundtrip (src : Tree) (p : String)
    (h : p = "LICENSE" ∨ globMatch "include/*" p = true) :
    package (export_sources src) p = src p := by
  rcases h with rfl | hm
  · cases hs : src "LICENSE" <;>
      simp [package, export_sources, copyP, Tree.empty, hs,
        (by decide : globMatch "LICENSE" "LICENSE" = true),
        (by decide : globMatch "include/*" "LICENSE" = false),
        (by decide : globMatch "include*" "LICENSE" = false),
        (by decide : globMatch "conan/1.83_compat.patch" "LICENSE" = false)]
  · have hinc := globMatch_include_sub p hm
    obtain ⟨hlic, hpatch⟩ := globMatch_include_not_special p hm
    cases hs : src p <;>
      simp [package, export_sources, copyP, Tree.empty, hm, hinc, hlic, hpatch, hs]

/-- A source tree with a license file, one header and the patch file, used
to instantiate the copy-hook theorems. -/
def srcTreeDemo : Tree := fun p =>
  if p = "LICENSE" then some "license-text"
  else if p = "include/boost/scope/scope_exit.hpp" then some "header-text"
  else if p = "conan/1.83_compat.patch" then some "patch-text"
  else none

/-- Witness for C5 at the demo tree and a header path. -/
theorem export_then_package_roundtrip_witness :
    ("include/boost/scope/scope_exit.hpp" = "LICENSE" ∨
      globMatch "include/*" "include/boost/scope/scope_exit.hpp" = true) ∧
    package (export_sources srcTreeDemo) "include/boost/scope/scope_exit.hpp" =
      srcTreeDemo "include/boost/scope/scope_exit.hpp" :=
  ⟨Or.inr (by decide),
    export_then_package_roundtrip srcTreeDemo _ (Or.inr (by decide))⟩

/-- C4: `build` applies the single named patch `conan/1.83_compat.patch` to
the source tree in place; it fails with a patch error exactly when the patch
does not apply cleanly, and on success its only effect is the patched
source tree. -/
theorem build_patch_outcome (ap : String → Tree → Option Tree) (src : Tree)
    (pc : String) (h : src "conan/1.83_compat.patch" = some pc) :
    (build ap src = .patchError ↔ ap pc src = none) ∧
    (∀ t, ap pc src = some t → build ap src = .ok t) := by
  unfold build
  rw [h]
  cases hap : ap pc src <;> simp [hap]

/-- A patch tool that applies exactly the demo patch contents. -/
def patchToolDemo : String → Tree → Option Tree :=
  fun pc t => if pc = "patch-text" then some t else none

/-- Witness for C4 at the demo tree and demo patch tool. -/
theorem build_patch_outcome_witness :
    srcTreeDemo "conan/1.83_compat.patch" = some "patch-text" ∧
    (build patchToolDemo srcTreeDemo = .patchError ↔
      patchToolDemo "patch-text" srcTreeDemo = none) :=
  ⟨by decide, (build_patch_outcome patchToolDemo srcTreeDemo "patch-text" (by decide)).1⟩

/-- C10: the path `build` reads, `conan/1.83_compat.patch`, is exactly the
third staging pattern of `export_sources`, so a patch file present at the
source root is present in the staged tree; and the packaged tree contains
only paths under `include/` and the license file, never the patch file. -/
theorem staged_patch_and_package_contents (src : Tree) :
    (∀ pc, src "conan/1.83_compat.patch" = some pc →
        export_sources src "conan/1.83_compat.patch" = some pc) ∧
    (∀ p, (package src p).isSome = true →
        globMatch "include/*" p = true ∨ p = "LICENSE") ∧
    package src "conan/1.83_compat.patch" = none := by
  refine ⟨?_, ?_, ?_⟩
  · intro pc hpc
    simp [export_sources, copyP, hpc,
      (by decide : globMatch "conan/1.83_compat.patch" "conan/1.83_compat.patch" = true)]
  · intro p hp
    by_cases hl : globMatch "LICENSE" p = true
    · exact Or.inr ((globMatch_exact "LICENSE" p (by decide)).mp hl)
    · by_cases hi : globMatch "include/*" p = true
      · exact Or.inl hi
      · exfalso
        have hl' : globMatch "LICENSE" p = false := by simpa using hl
        have hi' : globMatch "include/*" p = false := by simpa using hi
        have hnone : package src p = none := by
          simp [package, copyP, Tree.empty, hl', hi']
        rw [hnone] at hp
        simp at hp
  · simp [package, copyP, Tree.empty,
      (by decide : globMatch "LICENSE" "conan/1.83_compat.patch" = false),
      (by decide : globMatch "include/*" "conan/1.83_compat.patch" = false)]

/-- Witness for C10 at the demo tree. -/
theorem staged_patch_and_package_contents_witness :
    export_sources srcTreeDemo "conan/1.83_compat.patch" = some "patch-text" ∧
    package srcTreeDemo "conan/1.83_compat.patch" = none :=
  ⟨(staged_patch_and_package_contents srcTreeDemo).1 "patch-text" (by decide),
    (staged_patch_and_package_contents srcTreeDemo).2.2⟩

end BoostScope
